import Mathlib

/-!
Shallow embedding of the chatbot widget controller (chatbot.js) and proofs
about its message lifecycle, response resolution and persistence logic.
-/

/-- JavaScript list-level substring test: true when the needle occurs as a
contiguous run of characters inside the haystack (an empty needle always
occurs). -/
def includesAux (needle : List Char) : List Char → Bool
  | [] => needle.isEmpty
  | c :: t => needle.isPrefixOf (c :: t) || includesAux needle t

/-- JavaScript s.includes(sub), as used by the keyword scan. -/
def strIncludes (s sub : String) : Bool :=
  includesAux sub.data s.data

/-- Locate the first occurrence of pat in hay, returning the characters
before the match and the characters after it; none when pat does not
occur. This models the search step of String.prototype.replace with a
string pattern. -/
def splitFirst (hay pat : List Char) : Option (List Char × List Char) :=
  match hay with
  | [] => if pat.isEmpty then some ([], []) else none
  | c :: t =>
    if pat.isPrefixOf (c :: t) then some ([], (c :: t).drop pat.length)
    else
      match splitFirst t pat with
      | none => none
      | some (b, a) => some (c :: b, a)

/-- GetSubstitution from the ECMAScript String.prototype.replace algorithm,
specialised to a string search value (so there are no capture groups): in
the replacement text, a dollar sign followed by another dollar sign yields
one dollar sign, by an ampersand yields the matched text, by a backquote
(code 96) yields the text before the match, by a quote character (code 39)
yields the text after the match; any other dollar sign is literal. -/
def getSubst (matched before after : List Char) : List Char → List Char
  | [] => []
  | '$' :: c :: rest =>
    if c = '$' then '$' :: getSubst matched before after rest
    else if c = '&' then matched ++ getSubst matched before after rest
    else if c = Char.ofNat 96 then before ++ getSubst matched before after rest
    else if c = Char.ofNat 39 then after ++ getSubst matched before after rest
    else '$' :: getSubst matched before after (c :: rest)
  | c :: rest => c :: getSubst matched before after rest

/-- JavaScript s.replace(pat, rep) with a string pattern: only the first
occurrence is replaced, and the replacement string undergoes the
dollar-pattern substitution of getSubst. -/
def jsReplace (s pat rep : String) : String :=
  match splitFirst s.data pat.data with
  | none => s
  | some (b, a) => ⟨b ++ getSubst pat.data b a rep.data ++ a⟩

/-- JavaScript input.trim(), trimming whitespace from both ends. -/
def jsTrim (s : String) : String :=
  ⟨((s.data.dropWhile Char.isWhitespace).reverse.dropWhile
      Char.isWhitespace).reverse⟩

/-- JavaScript message.toLowerCase(), mapping each character to lower
case. -/
def jsToLower (s : String) : String :=
  ⟨s.data.map Char.toLower⟩

/-- Keyword scan of getBotResponse: iterate the configured entries in
order and return the reply of the first key that is distinct from the
default key and occurs in the lowercased message. -/
def scanResponses (lower : String) : List (String × String) → Option String
  | [] => none
  | (k, v) :: rest =>
    if k != "default" && strIncludes lower k then some v
    else scanResponses lower rest

/-- Property lookup on the responses object, modelling JavaScript field
access on an object literal as association-list lookup. -/
def lookupKey (rs : List (String × String)) (k : String) : Option String :=
  (rs.find? (fun p => p.1 == k)).map (fun p => p.2)

/-- Local (fallback) branch of getBotResponse: keyword scan over the
configured responses; when no keyword matches, the default template with
the placeholder replaced through JavaScript replace semantics. The value
none models the TypeError thrown when no keyword matches and no default
entry exists. -/
def localResponse (rs : List (String × String)) (message : String) :
    Option String :=
  match scanResponses (jsToLower message) rs with
  | some v => some v
  | none =>
    (lookupKey rs "default").map (fun t => jsReplace t "{message}" message)

/-- Default reply template configured in the constructor. -/
def defaultTemplate : String :=
  "I understand you\x27re saying \"{message}\". How can I help you with that?"

/-- Default configured responses from the constructor of ReusableChatbot. -/
def defaultResponses : List (String × String) :=
  [("hello", "Hello there! How can I assist you today?"),
   ("hi", "Hi! What can I help you with?"),
   ("help", "I\x27m here to help! You can ask me questions and I\x27ll do my best to assist you."),
   ("default", defaultTemplate)]

/-- Configuration record after the shallow merge in the constructor. -/
structure Config where
  botName : String
  welcomeMessage : String
  apiEndpoint : Option String
  responses : List (String × String)
  typingDelay : Nat
  messageDelay : Nat
  autoOpen : Bool
  theme : String
deriving DecidableEq

/-- Default configuration of the constructor, before caller overrides. -/
def defaultConfig : Config :=
  ⟨"AI Assistant", "Hello! How can I help you today?", none, defaultResponses,
   1000, 500, false, "default"⟩

/-- Parsed JSON body of a successful API response, restricted to the two
string fields the code inspects; none models an absent field. -/
structure ApiBody where
  message : Option String
  response : Option String
deriving DecidableEq

/-- Outcome of the single fetch call issued by getBotResponse: the fetch
itself may throw, the response may carry a non-success status, reading the
JSON body may throw, or a parsed body is obtained. -/
inductive FetchOutcome
  | fetchThrow
  | notOk
  | okJsonThrow
  | okBody (body : ApiBody)
deriving DecidableEq

/-- JavaScript truthiness chain a or-else b for optional strings: an
absent or empty string falls through to the alternative. -/
def orElseStr (o : Option String) (alt : String) : String :=
  match o with
  | some s => if s = "" then alt else s
  | none => alt

/-- getBotResponse: when an endpoint is configured, a parsed success body
yields its message or response field (or a fixed fallback string when both
are absent or empty); every other fetch outcome falls through to the local
keyword policy, as does the case of no configured endpoint. -/
def getBotResponse (cfg : Config) (fr : FetchOutcome) (message : String) :
    Option String :=
  if cfg.apiEndpoint.isSome then
    match fr with
    | FetchOutcome.okBody b =>
      some (orElseStr b.message
        (orElseStr b.response "Sorry, I didn\x27t understand that."))
    | _ => localResponse cfg.responses message
  else localResponse cfg.responses message

/-- Message record as built by addMessage: sender tag, finalized content,
creation time in milliseconds, and generated id. -/
structure Message where
  sender : String
  content : String
  timestamp : Int
  id : String
deriving DecidableEq

/-- Persisted snapshot: the saved messages together with the save time in
milliseconds. -/
structure Snapshot where
  messages : List Message
  timestamp : Int
deriving DecidableEq

/-- Contents of the persistence slot under the fixed key: the slot may be
absent, hold a string that fails to parse or lacks the expected fields, or
hold a parsed snapshot. -/
inductive Stored
  | absent
  | malformed
  | snap (s : Snapshot)
deriving DecidableEq

/-- Observable controller state: the in-memory history, the persistence
slot, the rendered message list, and the log of tracked events. -/
structure ChatState where
  history : List Message
  store : Stored
  rendered : List Message
  events : List String
deriving DecidableEq

/-- JavaScript arr.slice(-n): the suffix of the most recent n entries, or
the whole list when it is shorter than n. -/
def lastN (n : Nat) (l : List Message) : List Message :=
  l.drop (l.length - n)

/-- Milliseconds in seven days, the freshness bound of loadMessageHistory. -/
def sevenDaysMs : Int := 604800000

/-- saveMessageHistory: write a snapshot holding the last 50 in-memory
messages together with the save time; the in-memory history is untouched. -/
def saveMessageHistory (st : ChatState) (now : Int) : ChatState :=
  { st with store := Stored.snap ⟨lastN 50 st.history, now⟩ }

/-- loadMessageHistory: adopt the stored messages and render them when a
snapshot exists and is younger than seven days; an absent or malformed
slot, or a stale snapshot, leaves the state unchanged (all read errors are
caught). -/
def loadMessageHistory (st : ChatState) (now : Int) : ChatState :=
  match st.store with
  | Stored.snap s =>
    if now - s.timestamp < sevenDaysMs then
      { st with history := s.messages, rendered := s.messages }
    else st
  | _ => st

/-- Message record constructed at the top of addMessage. -/
def mkMessage (sender content : String) (now : Int) (id : String) : Message :=
  ⟨sender, content, now, id⟩

/-- addMessage: append the new message to the in-memory history, persist
immediately, and append a rendered element. -/
def addMessage (st : ChatState) (sender content : String) (now : Int)
    (id : String) : ChatState :=
  let m := mkMessage sender content now id
  saveMessageHistory
    { st with history := st.history ++ [m], rendered := st.rendered ++ [m] }
    now

/-- trackEvent: record an observability event name. -/
def trackEvent (st : ChatState) (name : String) : ChatState :=
  { st with events := st.events ++ [name] }

/-- Hardcoded apology emitted by the error branch of sendMessage. -/
def apologyMessage : String :=
  "Sorry, I\x27m having trouble responding right now. Please try again."

/-- sendMessage: trim the input and stop on an empty result; otherwise
append the user message, resolve a bot reply through the given resolver
(none models a thrown resolution error, answered by the apology message),
append the bot message, and record the message-sent event. -/
def sendMessage (resolver : String → Option String) (st : ChatState)
    (input : String) (now : Int) (idU : String) (now2 : Int) (idB : String) :
    ChatState :=
  let message := jsTrim input
  if message = "" then st
  else
    let st1 := addMessage st "user" message now idU
    let st2 :=
      match resolver message with
      | some r => addMessage st1 "bot" r now2 idB
      | none => addMessage st1 "bot" apologyMessage now2 idB
    trackEvent st2 "message_sent"

/-- Fresh controller state before initialization, over the given
persistence slot. -/
def initialState (stored : Stored) : ChatState :=
  ⟨[], stored, [], []⟩

/-- init: load any persisted history, then add the welcome message through
the normal add-message path when the history is still empty. -/
def init (cfg : Config) (stored : Stored) (now : Int) (id : String) :
    ChatState :=
  let st := loadMessageHistory (initialState stored) now
  if st.history.isEmpty then addMessage st "bot" cfg.welcomeMessage now id
  else st

/-- clearHistory: discard the in-memory history, clear the rendered list,
persist the now-empty history, then add a fresh welcome message through
the normal add-message path. -/
def clearHistory (cfg : Config) (st : ChatState) (now : Int) (id : String) :
    ChatState :=
  let st1 := saveMessageHistory { st with history := [], rendered := [] } now
  addMessage st1 "bot" cfg.welcomeMessage now id

/-- refreshChat: clear the history and record the refresh event. -/
def refreshChat (cfg : Config) (st : ChatState) (now : Int) (id : String) :
    ChatState :=
  trackEvent (clearHistory cfg st now id) "chatbot_refreshed"

/-- Statistics returned by getStats, restricted to the history-derived
fields. -/
structure Stats where
  totalMessages : Nat
  userMessages : Nat
  botMessages : Nat
  firstMessage : Option Int
  lastMessage : Option Int
deriving DecidableEq

/-- getStats: counts of all, user and bot messages plus the first and last
message timestamps. -/
def getStats (st : ChatState) : Stats :=
  ⟨st.history.length,
   (st.history.filter (fun m => m.sender == "user")).length,
   (st.history.filter (fun m => m.sender == "bot")).length,
   (st.history.head?).map (fun m => m.timestamp),
   (st.history.getLast?).map (fun m => m.timestamp)⟩

/-- Predicate: every message in the list carries one of the two sender
tags. -/
def goodHistory (h : List Message) : Bool :=
  h.all (fun m => m.sender == "user" || m.sender == "bot")

/-- Predicate on the persistence slot: any stored messages carry one of
the two sender tags. -/
def goodStored : Stored → Bool
  | Stored.snap s => goodHistory s.messages
  | _ => true

/-- Predicate: the configured responses contain a default entry. -/
def hasDefault (rs : List (String × String)) : Bool :=
  (lookupKey rs "default").isSome

/-- Predicate: the fetch outcome is a failure (a throw, a non-success
status, or an unreadable body), as opposed to a parsed success body. -/
def fetchFailed : FetchOutcome → Bool
  | FetchOutcome.okBody _ => false
  | _ => true

/-- Predicate: the persistence slot is absent, malformed, or at least
seven days old at the given time. -/
def staleOrAbsent (stored : Stored) (now : Int) : Bool :=
  match stored with
  | Stored.snap s => decide (sevenDaysMs ≤ now - s.timestamp)
  | _ => true

/-- Stated from the wording of the claim about the keyword scan, for
comparison with the code: key k is a case-insensitive substring of s, that
is, the lowercased key occurs inside the lowercased text. -/
def caseInsensitiveSubstring (k s : String) : Bool :=
  strIncludes (jsToLower s) (jsToLower k)

lemma scanResponses_append_first (lower : String)
    (pre post : List (String × String)) (k v : String)
    (hk : k ≠ "default") (hm : strIncludes lower k = true)
    (hpre : ∀ p ∈ pre, p.1 = "default" ∨ strIncludes lower p.1 = false) :
    scanResponses lower (pre ++ (k, v) :: post) = some v := by
  induction pre with
  | nil => simp [scanResponses, hm, hk]
  | cons p rest ih =>
    obtain ⟨k2, v2⟩ := p
    have hrest : ∀ q ∈ rest, q.1 = "default" ∨ strIncludes lower q.1 = false :=
      fun q hq => hpre q (List.mem_cons_of_mem _ hq)
    have hcond : (k2 != "default" && strIncludes lower k2) = false := by
      rcases hpre ⟨k2, v2⟩ (List.mem_cons_self _ _) with h1 | h1 <;>
        simp at h1 <;> simp [h1]
    have hstep : scanResponses lower ((k2, v2) :: (rest ++ (k, v) :: post))
        = scanResponses lower (rest ++ (k, v) :: post) := by
      simp [scanResponses, hcond]
    rw [List.cons_append, hstep]
    exact ih hrest

/-- C1 (amended): for every configured responses list and input, when the
list splits as pre ++ (k, v) :: post where k is not the default key, k is
a substring of the lowercased input, and no earlier entry is a matching
non-default key, the local keyword policy returns the reply v of that
first matching key, regardless of later-matching keys. -/
theorem C1_first_match (rs : List (String × String)) (input : String)
    (pre post : List (String × String)) (k v : String)
    (hsplit : rs = pre ++ (k, v) :: post)
    (hk : k ≠ "default")
    (hmatch : strIncludes (jsToLower input) k = true)
    (hpre : ∀ p ∈ pre, p.1 = "default" ∨
      strIncludes (jsToLower input) p.1 = false) :
    localResponse rs input = some v := by
  subst hsplit
  unfold localResponse
  rw [scanResponses_append_first _ _ _ _ _ hk hmatch hpre]

/-- C1 witness: in a configuration whose first matching entry after the
skipped default entry is the key hello, the mixed-case input yields
exactly that reply even though a later key also matches. -/
theorem C1_witness :
    localResponse [("default", "D"), ("hello", "Hi!"), ("lo", "X")]
        "HeLLo world"
      = some "Hi!" :=
  C1_first_match _ _ [("default", "D")] [("lo", "X")] "hello" "Hi!" rfl
    (by decide) (by decide) (by decide)

/-- C1 counterexample: the key A is a case-insensitive substring of the
input a and is not the default key, yet the scan returns the default reply
rather than the reply of that key, because the code lowercases only the
input and compares the key exactly. -/
theorem C1_counterexample :
    caseInsensitiveSubstring "A" "a" = true ∧ ("A" : String) ≠ "default" ∧
    localResponse [("A", "r1"), ("default", "d")] "a" = some "d" ∧
    localResponse [("A", "r1"), ("default", "d")] "a" ≠ some "r1" := by
  refine ⟨by decide, by decide, by decide, by decide⟩

/-- C2 (code bug evaluation): on the input consisting of the two
characters dollar and ampersand, no keyword matches, and the code returns
the default template unchanged: the replacement string undergoes
JavaScript dollar-pattern substitution, so the matched placeholder text is
substituted for the input instead of the verbatim input. -/
theorem C2_dollar_expansion :
    localResponse defaultResponses "$&" = some defaultTemplate ∧
    defaultTemplate
      = "I understand you\x27re saying \"{message}\". How can I help you with that?" ∧
    localResponse defaultResponses "$&"
      ≠ some "I understand you\x27re saying \"$&\". How can I help you with that?" := by
  refine ⟨by decide, rfl, by decide⟩

/-- C3: saveMessageHistory leaves the in-memory history unchanged and
persists a snapshot whose messages are exactly the suffix of the most
recent min(50, length) messages of the history, in original relative
order. -/
theorem C3_save_last50 (st : ChatState) (now : Int) :
    (saveMessageHistory st now).history = st.history ∧
    (saveMessageHistory st now).store
      = Stored.snap ⟨lastN 50 st.history, now⟩ ∧
    (lastN 50 st.history).length = min 50 st.history.length ∧
    lastN 50 st.history <:+ st.history := by
  refine ⟨rfl, rfl, ?_, List.drop_suffix _ _⟩
  simp [lastN]
  omega

/-- C4: saving a history of at most 50 messages and reloading it within
seven days reproduces the identical ordered sequence of sender-content
pairs. -/
theorem C4_roundtrip (st : ChatState) (tsave tnow : Int)
    (hlen : st.history.length ≤ 50)
    (hfresh : tnow - tsave < sevenDaysMs) :
    ((loadMessageHistory (saveMessageHistory st tsave) tnow).history).map
        (fun m => (m.sender, m.content))
      = st.history.map (fun m => (m.sender, m.content)) := by
  have hdrop : lastN 50 st.history = st.history := by
    unfold lastN
    rw [Nat.sub_eq_zero_of_le hlen, List.drop_zero]
  have hhist : (loadMessageHistory (saveMessageHistory st tsave) tnow).history
      = st.history := by
    simp [saveMessageHistory, loadMessageHistory, hfresh, hdrop]
  rw [hhist]

/-- C4 witness: a two-message history saved at time 100 and reloaded at
time 200 yields the same sender-content pairs. -/
theorem C4_witness :
    ((loadMessageHistory
        (saveMessageHistory
          ⟨[mkMessage "user" "hi" 0 "a", mkMessage "bot" "yo" 1 "b"],
           Stored.absent, [], []⟩ 100) 200).history).map
        (fun m => (m.sender, m.content))
      = [("user", "hi"), ("bot", "yo")] := by
  have h := C4_roundtrip
    ⟨[mkMessage "user" "hi" 0 "a", mkMessage "bot" "yo" 1 "b"],
     Stored.absent, [], []⟩ 100 200 (by decide) (by decide)
  simpa [mkMessage] using h

/-- C5: when the persistence slot is absent, malformed, or at least seven
days old, the rehydrated history is empty, and init appends exactly one
welcome bot message through the normal add-message path, so the resulting
history is that single message. -/
theorem C5_stale_welcome (cfg : Config) (stored : Stored) (now : Int)
    (id : String) (h : staleOrAbsent stored now = true) :
    (loadMessageHistory (initialState stored) now).history = [] ∧
    init cfg stored now id
      = addMessage (loadMessageHistory (initialState stored) now) "bot"
          cfg.welcomeMessage now id ∧
    (init cfg stored now id).history
      = [mkMessage "bot" cfg.welcomeMessage now id] := by
  have hload : loadMessageHistory (initialState stored) now
      = initialState stored := by
    cases stored with
    | absent => rfl
    | malformed => rfl
    | snap s =>
      have hst : sevenDaysMs ≤ now - s.timestamp := by
        simpa [staleOrAbsent] using h
      simp [loadMessageHistory, initialState, Int.not_lt.mpr hst]
  refine ⟨?_, ?_, ?_⟩
  · rw [hload]; rfl
  · unfold init
    rw [hload]
    rfl
  · unfold init
    rw [hload]
    rfl

/-- C5 witness: with an absent slot, initialization at time 0 produces a
history holding exactly the welcome bot message. -/
theorem C5_witness :
    staleOrAbsent Stored.absent 0 = true ∧
    (init defaultConfig Stored.absent 0 "w1").history
      = [mkMessage "bot" defaultConfig.welcomeMessage 0 "w1"] :=
  ⟨rfl, (C5_stale_welcome defaultConfig Stored.absent 0 "w1" rfl).2.2⟩

/-- C6: when the trimmed input is empty, sendMessage is a complete no-op
for every resolver: the history, persistence slot, rendered list and event
log are all unchanged, and the result does not depend on the resolver. -/
theorem C6_empty_noop (resolver : String → Option String) (st : ChatState)
    (input : String) (now : Int) (idU : String) (now2 : Int) (idB : String)
    (h : jsTrim input = "") :
    sendMessage resolver st input now idU now2 idB = st := by
  simp [sendMessage, h]

/-- C6 witness: a whitespace-only input leaves the fresh state unchanged. -/
theorem C6_witness :
    sendMessage (fun _ => none) (initialState Stored.absent) " \t " 0 "a" 0 "b"
      = initialState Stored.absent :=
  C6_empty_noop _ _ _ _ _ _ _ (by decide)

lemma jsReplace_eq_of_splitFirst (s pat rep : String) (b a : List Char)
    (h : splitFirst s.data pat.data = some (b, a)) :
    jsReplace s pat rep = ⟨b ++ getSubst pat.data b a rep.data ++ a⟩ := by
  unfold jsReplace
  rw [h]

lemma splitFirst_defaultTemplate :
    splitFirst defaultTemplate.data ("{message}" : String).data
      = some (("I understand you\x27re saying \"" : String).data,
              ("\". How can I help you with that?" : String).data) := by
  decide

lemma mk_append3_ne_empty (b g a : List Char) (hb : b ≠ []) :
    (⟨b ++ g ++ a⟩ : String) ≠ "" := by
  intro h
  apply hb
  have h2 : b ++ g ++ a = [] := congrArg String.data h
  exact (List.append_eq_nil.mp (List.append_eq_nil.mp h2).1).1

lemma replaceTemplate_ne_empty (r : String) :
    jsReplace defaultTemplate "{message}" r ≠ "" := by
  rw [jsReplace_eq_of_splitFirst _ _ _ _ _ splitFirst_defaultTemplate]
  exact mk_append3_ne_empty _ _ _ (by decide)

lemma scanResponses_mem (lower : String) (rs : List (String × String))
    (v : String) (h : scanResponses lower rs = some v) :
    ∃ k, (k, v) ∈ rs := by
  induction rs with
  | nil => simp [scanResponses] at h
  | cons p rest ih =>
    obtain ⟨k2, v2⟩ := p
    by_cases hc : (k2 != "default" && strIncludes lower k2) = true
    · simp only [scanResponses] at h
      rw [if_pos hc] at h
      injection h with hv
      exact ⟨k2, hv ▸ List.mem_cons_self _ _⟩
    · simp only [scanResponses] at h
      rw [if_neg hc] at h
      obtain ⟨k3, hk3⟩ := ih h
      exact ⟨k3, List.mem_cons_of_mem _ hk3⟩

lemma localResponse_ne_empty (rs : List (String × String)) (input t : String)
    (hvals : ∀ p ∈ rs, p.2 ≠ "")
    (hd : lookupKey rs "default" = some t)
    (hdef : ∀ r, jsReplace t "{message}" r ≠ "") :
    ∃ s, localResponse rs input = some s ∧ s ≠ "" := by
  unfold localResponse
  cases hscan : scanResponses (jsToLower input) rs with
  | some v =>
    obtain ⟨k, hk⟩ := scanResponses_mem _ _ _ hscan
    exact ⟨v, rfl, hvals ⟨k, v⟩ hk⟩
  | none =>
    refine ⟨jsReplace t "{message}" input, ?_, hdef input⟩
    simp [hd]

/-- C7 (amended): when an external endpoint is configured, a network
error, a non-success status, or an unreadable body makes getBotResponse
return exactly the result of the local keyword policy, and with the
default configured responses that result is a non-empty string for every
input; a parsed success body lacking both expected fields instead yields a
fixed fallback string rather than the local policy (see the
counterexample). -/
theorem C7_failure_fallback :
    (∀ (cfg : Config) (fr : FetchOutcome) (input : String),
      cfg.apiEndpoint.isSome = true → fetchFailed fr = true →
      getBotResponse cfg fr input = localResponse cfg.responses input) ∧
    (∀ (fr : FetchOutcome) (input : String), fetchFailed fr = true →
      ∃ s, getBotResponse
          { defaultConfig with
            apiEndpoint := some "https://api.example.com/chat" }
          fr input = some s ∧ s ≠ "") := by
  have hmain : ∀ (cfg : Config) (fr : FetchOutcome) (input : String),
      cfg.apiEndpoint.isSome = true → fetchFailed fr = true →
      getBotResponse cfg fr input = localResponse cfg.responses input := by
    intro cfg fr input hep hf
    unfold getBotResponse
    rw [if_pos hep]
    cases fr with
    | okBody b => simp [fetchFailed] at hf
    | fetchThrow => rfl
    | notOk => rfl
    | okJsonThrow => rfl
  refine ⟨hmain, ?_⟩
  intro fr input hf
  rw [hmain
    { defaultConfig with apiEndpoint := some "https://api.example.com/chat" }
    fr input rfl hf]
  exact localResponse_ne_empty defaultResponses input defaultTemplate
    (by decide) (by decide) replaceTemplate_ne_empty

/-- C7 witness: with the endpoint configured and the fetch throwing, the
resolver still returns a non-empty string from the local keyword policy. -/
theorem C7_witness :
    ∃ s, getBotResponse
        { defaultConfig with
          apiEndpoint := some "https://api.example.com/chat" }
        FetchOutcome.fetchThrow "quux" = some s ∧ s ≠ "" :=
  C7_failure_fallback.2 FetchOutcome.fetchThrow "quux" rfl

/-- C7 counterexample: with an endpoint configured, a well-formed success
response lacking both the message and the response field makes
getBotResponse return the hardcoded fallback string, not the result of the
local keyword policy, which here would be the reply of the hello key. -/
theorem C7_counterexample :
    getBotResponse
        { defaultConfig with
          apiEndpoint := some "https://api.example.com/chat" }
        (FetchOutcome.okBody ⟨none, none⟩) "hello"
      = some "Sorry, I didn\x27t understand that." ∧
    localResponse defaultResponses "hello"
      = some "Hello there! How can I assist you today?" ∧
    ("Sorry, I didn\x27t understand that." : String)
      ≠ "Hello there! How can I assist you today?" := by
  refine ⟨rfl, by decide, by decide⟩

/-- C8: the reset operation produces a history holding exactly one bot
message with the configured welcome content, and its history, persistence
slot and rendered list coincide with those of a fresh initialization over
an empty persistence slot. -/
theorem C8_reset_equals_init (cfg : Config) (st : ChatState) (now : Int)
    (id : String) :
    (refreshChat cfg st now id).history
      = [mkMessage "bot" cfg.welcomeMessage now id] ∧
    (refreshChat cfg st now id).history
      = (init cfg Stored.absent now id).history ∧
    (refreshChat cfg st now id).store
      = (init cfg Stored.absent now id).store ∧
    (refreshChat cfg st now id).rendered
      = (init cfg Stored.absent now id).rendered :=
  ⟨rfl, rfl, rfl, rfl⟩

/-- C9: when the configured responses contain a default entry, response
resolution is total: getBotResponse returns a string for every fetch
outcome and input, and on every non-empty trimmed input sendMessage takes
the success path, appending the resolved bot message rather than the
apology of the error branch. -/
theorem C9_resolution_total (cfg : Config) (fr : FetchOutcome)
    (h : hasDefault cfg.responses = true) :
    (∀ input, ∃ s, getBotResponse cfg fr input = some s) ∧
    (∀ (st : ChatState) (input : String) (now : Int) (idU : String)
        (now2 : Int) (idB : String), jsTrim input ≠ "" →
      ∃ s, getBotResponse cfg fr (jsTrim input) = some s ∧
        sendMessage (getBotResponse cfg fr) st input now idU now2 idB
          = trackEvent
              (addMessage (addMessage st "user" (jsTrim input) now idU)
                "bot" s now2 idB)
              "message_sent") := by
  have htotal : ∀ input, ∃ s, getBotResponse cfg fr input = some s := by
    intro input
    have hlocal : ∃ s, localResponse cfg.responses input = some s := by
      unfold localResponse
      cases hscan : scanResponses (jsToLower input) cfg.responses with
      | some v => exact ⟨v, rfl⟩
      | none =>
        unfold hasDefault at h
        obtain ⟨t, ht⟩ := Option.isSome_iff_exists.mp h
        exact ⟨jsReplace t "{message}" input, by simp [ht]⟩
    unfold getBotResponse
    by_cases hep : cfg.apiEndpoint.isSome = true
    · rw [if_pos hep]
      cases fr with
      | okBody b => exact ⟨_, rfl⟩
      | fetchThrow => exact hlocal
      | notOk => exact hlocal
      | okJsonThrow => exact hlocal
    · rw [if_neg hep]
      exact hlocal
  refine ⟨htotal, ?_⟩
  intro st input now idU now2 idB hne
  obtain ⟨s, hs⟩ := htotal (jsTrim input)
  refine ⟨s, hs, ?_⟩
  simp only [sendMessage]
  rw [if_neg hne, hs]

/-- C9 witness: with the default configuration (which has a default entry)
and a failing fetch, resolution returns a string on a sample input. -/
theorem C9_witness :
    ∃ s, getBotResponse defaultConfig FetchOutcome.fetchThrow "weather"
      = some s :=
  (C9_resolution_total defaultConfig FetchOutcome.fetchThrow (by decide)).1
    "weather"

lemma goodAppend (h : List Message) (m : Message)
    (hh : goodHistory h = true)
    (hm : (m.sender == "user" || m.sender == "bot") = true) :
    goodHistory (h ++ [m]) = true := by
  simp only [goodHistory, List.all_append, List.all_cons, List.all_nil,
    Bool.and_true, Bool.and_eq_true]
  exact ⟨hh, hm⟩

lemma good_load (st : ChatState) (now : Int)
    (hh : goodHistory st.history = true) (hs : goodStored st.store = true) :
    goodHistory ((loadMessageHistory st now).history) = true := by
  cases hst : st.store with
  | absent => simp only [loadMessageHistory, hst]; exact hh
  | malformed => simp only [loadMessageHistory, hst]; exact hh
  | snap s =>
    rw [hst] at hs
    by_cases hfresh : now - s.timestamp < sevenDaysMs
    · simp only [loadMessageHistory, hst, if_pos hfresh]
      exact hs
    · simp only [loadMessageHistory, hst, if_neg hfresh]
      exact hh

lemma length_filter_user_bot (l : List Message) (h : goodHistory l = true) :
    l.length = (l.filter (fun m => m.sender == "user")).length
      + (l.filter (fun m => m.sender == "bot")).length := by
  induction l with
  | nil => simp
  | cons m t ih =>
    simp only [goodHistory, List.all_cons, Bool.and_eq_true] at h
    obtain ⟨hm, ht⟩ := h
    have ih2 := ih ht
    by_cases hu : m.sender = "user"
    · have hu2 : (m.sender == "user") = true := by rw [hu]; rfl
      have hb2 : (m.sender == "bot") = false := by rw [hu]; rfl
      simp [List.filter_cons, hu2, hb2]
      omega
    · have hb : m.sender = "bot" := by
        simp only [Bool.or_eq_true, beq_iff_eq] at hm
        rcases hm with h1 | h1
        · exact absurd h1 hu
        · exact h1
      have hu2 : (m.sender == "user") = false := by rw [hb]; rfl
      have hb2 : (m.sender == "bot") = true := by rw [hb]; rfl
      simp [List.filter_cons, hu2, hb2]
      omega

/-- C10: every controller operation appends only messages tagged user or
bot (user send with any resolver, initialization over a well-tagged slot,
and reset), and on every history whose messages carry those tags the
statistics satisfy that the total count is the sum of the user count and
the bot count. -/
theorem C10_sender_invariant :
    (∀ (resolver : String → Option String) (st : ChatState) (input : String)
        (now : Int) (idU : String) (now2 : Int) (idB : String),
      goodHistory st.history = true →
      goodHistory (sendMessage resolver st input now idU now2 idB).history
        = true) ∧
    (∀ (cfg : Config) (stored : Stored) (now : Int) (id : String),
      goodStored stored = true →
      goodHistory (init cfg stored now id).history = true) ∧
    (∀ (cfg : Config) (st : ChatState) (now : Int) (id : String),
      goodHistory (refreshChat cfg st now id).history = true) ∧
    (∀ st : ChatState, goodHistory st.history = true →
      (getStats st).totalMessages
        = (getStats st).userMessages + (getStats st).botMessages) := by
  refine ⟨?_, ?_, ?_, ?_⟩
  · intro resolver st input now idU now2 idB h
    by_cases hjt : jsTrim input = ""
    · simpa [sendMessage, hjt] using h
    · simp only [sendMessage]
      rw [if_neg hjt]
      have h1 : goodHistory
          ((addMessage st "user" (jsTrim input) now idU).history) = true :=
        goodAppend _ _ h rfl
      cases resolver (jsTrim input) with
      | some r => exact goodAppend _ _ h1 rfl
      | none => exact goodAppend _ _ h1 rfl
  · intro cfg stored now id hstd
    have hload : goodHistory
        ((loadMessageHistory (initialState stored) now).history) = true :=
      good_load _ now rfl hstd
    simp only [init]
    split
    · exact goodAppend _ _ hload rfl
    · exact hload
  · intro cfg st now id
    exact goodAppend _ _ rfl rfl
  · intro st h
    exact length_filter_user_bot st.history h

/-- C10 witness: concrete instances of each conjunct, with the sender
invariant checked on a sample send, initialization and reset, and the
statistics identity on the initialized state. -/
theorem C10_witness :
    goodHistory
        ((sendMessage (fun _ => none) (initialState Stored.absent) "hi"
          0 "a" 1 "b").history) = true ∧
    goodHistory ((init defaultConfig Stored.absent 0 "w").history) = true ∧
    goodHistory
        ((refreshChat defaultConfig (initialState Stored.absent) 0
          "w").history) = true ∧
    (getStats (init defaultConfig Stored.absent 0 "w")).totalMessages
      = (getStats (init defaultConfig Stored.absent 0 "w")).userMessages
        + (getStats (init defaultConfig Stored.absent 0 "w")).botMessages :=
  ⟨C10_sender_invariant.1 (fun _ => none) (initialState Stored.absent) "hi"
      0 "a" 1 "b" (by decide),
   C10_sender_invariant.2.1 defaultConfig Stored.absent 0 "w" (by decide),
   C10_sender_invariant.2.2.1 defaultConfig (initialState Stored.absent) 0 "w",
   C10_sender_invariant.2.2.2 (init defaultConfig Stored.absent 0 "w")
     (C10_sender_invariant.2.1 defaultConfig Stored.absent 0 "w" (by decide))⟩
